import Mathlib

/-!
Verification of the Bible-scraper (`src/main.py`) against its specification.

The Python program is shallowly embedded: the catalog dictionaries become
association lists, the progress ledger (a JSON object of objects) becomes a
nested association list, and the effectful chapter fetcher becomes a pure
function over an `Env` oracle recording which HTTP requests, parses and file
writes succeed, returning the effects (requests issued, files written,
ledger saves) explicitly.
-/

namespace BibleScraper

/-- The `bible_books` ordered dictionary from `src/main.py`: book code and
chapter count, in canonical order. -/
def bible_books : List (String × Nat) :=
  [("GEN", 50), ("EXO", 40), ("LEV", 27), ("NUM", 36), ("DEU", 34),
   ("JOS", 24), ("JDG", 21), ("RUT", 4), ("1SA", 31), ("2SA", 24),
   ("1KI", 22), ("2KI", 25), ("1CH", 29), ("2CH", 36), ("EZR", 10),
   ("NEH", 13), ("EST", 10), ("JOB", 42), ("PSA", 150), ("PRO", 31),
   ("ECC", 12), ("SNG", 8), ("ISA", 66), ("JER", 52), ("LAM", 5),
   ("EZK", 48), ("DAN", 12), ("HOS", 14), ("JOL", 3), ("AMO", 9),
   ("OBA", 1), ("JON", 4), ("MIC", 7), ("NAM", 3), ("HAB", 3),
   ("ZEP", 3), ("HAG", 2), ("ZEC", 14), ("MAL", 4), ("MAT", 28),
   ("MRK", 16), ("LUK", 24), ("JHN", 21), ("ACT", 28), ("ROM", 16),
   ("1CO", 16), ("2CO", 13), ("GAL", 6), ("EPH", 6), ("PHP", 4),
   ("COL", 4), ("1TH", 5), ("2TH", 3), ("1TI", 6), ("2TI", 4),
   ("TIT", 3), ("PHM", 1), ("HEB", 13), ("JAS", 5), ("1PE", 5),
   ("2PE", 3), ("1JN", 5), ("2JN", 1), ("3JN", 1), ("JUD", 1), ("REV", 22)]

/-- The `bible_versions` dictionary from `src/main.py`: version code to
provider id on bible.com. -/
def bible_versions : List (String × String) :=
  [("AMP", "1588"), ("AMPC", "8"), ("ASV", "12"), ("BSB", "3034"),
   ("CEB", "37"), ("CEV", "392"), ("CEVDCI", "303"), ("CEVUK", "294"),
   ("CJB", "1275"), ("CPDV", "42"), ("CSB", "1713"), ("DARBY", "478"),
   ("DRC1752", "55"), ("EASY", "2079"), ("ERV", "406"), ("ESV", "59"),
   ("FBV", "1932"), ("FNVNT", "3633"), ("GNBDC", "416"), ("GNBDK", "431"),
   ("GNBUK", "296"), ("GNT", "68"), ("GNTD", "69"), ("GNV", "2163"),
   ("GW", "70"), ("GWC", "1047"), ("HCSB", "72"), ("ICB", "1359"),
   ("JUB", "1077"), ("KJV", "1"), ("KJVAAE", "546"), ("KJVAE", "547"),
   ("LEB", "90"), ("LSB", "3345"), ("MEV", "1171"), ("MP1650", "1365"),
   ("MP1781", "3051"), ("MSG", "97"), ("NABRE", "463"), ("NASB1995", "100"),
   ("NASB2020", "2692"), ("NCV", "105"), ("NET", "107"), ("NIRV", "110"),
   ("NIV", "111"), ("NIVUK", "113"), ("NKJV", "114"), ("NLT", "116"),
   ("NMV", "2135"), ("NRSV", "2016"), ("NRSV-CI", "2015"), ("NRSVUE", "3523"),
   ("OYBCENGL", "3915"), ("PEV", "2530"), ("RAD", "2753"), ("RSV", "2020"),
   ("RSV-C", "2017"), ("RSVCI", "3548"), ("RV1885", "477"), ("RV1895", "1922"),
   ("TCENT", "3427"), ("TEG", "3010"), ("TLV", "314"), ("TOJB2011", "130"),
   ("TPT", "1849"), ("TS2009", "316"), ("WBMS", "2407"), ("WEBBE", "1204"),
   ("WEBUS", "206"), ("WMB", "1209"), ("WMBBE", "1207"), ("YLT98", "821")]

/-- Association-list lookup, the embedding of Python `dict` access.
Returns the value of the first matching key (Python dicts have unique keys,
so association lists built by `updateA` behave identically). -/
def lookupA {α : Type} : List (String × α) → String → Option α
  | [], _ => none
  | (k, v) :: t, key => if k = key then some v else lookupA t key

/-- Association-list key update, the embedding of Python `d[k] = v`:
replaces the first binding of the key in place, or appends a new binding at
the end (matching Python dict insertion order). -/
def updateA {α : Type} : List (String × α) → String → α → List (String × α)
  | [], key, v => [(key, v)]
  | (k, w) :: t, key, v =>
      if k = key then (key, v) :: t else (k, w) :: updateA t key v

/-- The in-memory progress ledger: version code ↦ (book code ↦ completed
chapter count), the embedding of the `progress` nested dict. -/
def Ledger : Type := List (String × List (String × Nat))

instance : DecidableEq Ledger := by
  unfold Ledger
  infer_instance

/-- `progress.get(version, {}).get(book, 0)` from `scrape_book`
(`src/main.py` line 184). -/
def completedCount (progress : Ledger) (version book : String) : Nat :=
  ((lookupA ((lookupA progress version).getD []) book).getD 0)

/-- Index of a book code in a key list (embedding of Python
`list.index`, which raises for an absent element — modelled as `none`). -/
def idxOf : List String → String → Option Nat
  | [], _ => none
  | k :: t, key => if k = key then some 0 else (idxOf t key).map (· + 1)

/-- Zero-pad a natural number's decimal form to width 2
(Python `f-string` format `02d`). -/
def pad2 (n : Nat) : String :=
  let s := toString n
  if s.length ≥ 2 then s else String.mk (List.replicate (2 - s.length) '0') ++ s

/-- Zero-pad a natural number's decimal form to width 3
(Python `f-string` format `03d`). -/
def pad3 (n : Nat) : String :=
  let s := toString n
  if s.length ≥ 3 then s else String.mk (List.replicate (3 - s.length) '0') ++ s

/-- `get_numbered_book_name` from `src/main.py` lines 134-136:
`f"{book_number:02d}_{book}"` with `book_number` the 1-based index of the
book in `bible_books`. Python `list.index` raises for an unknown book;
that is modelled as `none` (the caller catches the exception). -/
def get_numbered_book_name (book : String) : Option String :=
  match idxOf (bible_books.map Prod.fst) book with
  | none => none
  | some i => some (pad2 (i + 1) ++ "_" ++ book)

/-- The ledger update performed by `scrape_bible_chapter` after a successful
save (`src/main.py` lines 167-172): insert `{}` for an absent version,
insert `0` for an absent book, then increment the book's count by 1. -/
def recordCompletion (progress : Ledger) (version book : String) : Ledger :=
  let p1 := match lookupA progress version with
            | none => updateA progress version []
            | some _ => progress
  let inner := (lookupA p1 version).getD []
  let inner1 := match lookupA inner book with
                | none => updateA inner book 0
                | some _ => inner
  let n := (lookupA inner1 book).getD 0
  updateA p1 version (updateA inner1 book (n + 1))

/-- Python `str.strip()`: drop whitespace from both ends (embedded on the
character list so that it evaluates inside the kernel). -/
def pyStrip (s : String) : String :=
  String.mk (((s.data.dropWhile Char.isWhitespace).reverse.dropWhile
    Char.isWhitespace).reverse)

/-- `load_progress` from `src/main.py` lines 109-124. The persisted file is
`none` when absent and `some content` otherwise; `parseJson` is the
`json.loads` oracle (`none` models a `JSONDecodeError`). An absent file,
an empty (after strip) file, and an unparseable file all yield the empty
ledger; the Python code catches every exception, so the embedding is a
total function — it cannot raise. -/
def load_progress (file : Option String) (parseJson : String → Option Ledger) : Ledger :=
  match file with
  | none => []
  | some content =>
    let c := pyStrip content
    if c = "" then []
    else
      match parseJson c with
      | none => []
      | some p => p

/-- One verse-bearing element as returned by
`soup.select('span[data-usfm]')`: its `data-usfm` attribute and its raw
(untrimmed) text. -/
structure RawVerse where
  usfm : String
  raw : String
deriving DecidableEq

/-- One entry of the JSON artifact written per chapter
(`src/main.py` lines 150-156). -/
structure BibleVerse where
  verse_number : String
  text : String
deriving DecidableEq

/-- The element-to-entry map of `src/main.py` lines 150-156:
`verse['data-usfm'].split('.')[-1]` and `verse.text.strip()`. -/
def parseVerse (v : RawVerse) : BibleVerse :=
  { verse_number := (v.usfm.splitOn ".").getLastD "", text := pyStrip v.raw }

/-- One file written to disk: its path and the verse list serialized
into it. -/
structure Write where
  path : String
  data : List BibleVerse
deriving DecidableEq

/-- The externally visible effects of a run: HTTP GET requests issued
(by URL), artifact files written, and ledgers passed to `save_progress`. -/
structure Effects where
  requests : List String
  writes : List Write
  saves : List Ledger
deriving DecidableEq

/-- The empty effect record. -/
def Effects.emp : Effects := { requests := [], writes := [], saves := [] }

/-- Sequential composition of effects. -/
def Effects.app (e1 e2 : Effects) : Effects :=
  { requests := e1.requests ++ e2.requests,
    writes := e1.writes ++ e2.writes,
    saves := e1.saves ++ e2.saves }

/-- The environment oracle: which HTTP GETs succeed (request + status
check), whether the body parses, which verse elements the parsed page
contains, and which file writes (mkdir + open + dump) succeed. -/
structure Env where
  httpOk : String → Bool
  parseOk : String → Bool
  pageVerses : String → List RawVerse
  writeOk : String → Bool

/-- The URL template of `src/main.py` line 144:
`https://www.bible.com/bible/{version_id}/{book}.{chapter_number}.{version}`. -/
def chapterUrl (version_id book : String) (chapter_number : Nat) (version : String) : String :=
  "https://www.bible.com/bible/" ++ version_id ++ "/" ++ book ++ "." ++
    toString chapter_number ++ "." ++ version

/-- The artifact path of `src/main.py` lines 158-163:
`data/{version}/{numbered_book}/{book}_{chapter:03d}_{version}.json`. -/
def chapter_path (book : String) (chapter_number : Nat) (version : String) : String :=
  "data/" ++ version ++ "/" ++ (get_numbered_book_name book).getD "" ++ "/" ++
    book ++ "_" ++ pad3 chapter_number ++ "_" ++ version ++ ".json"

/-- Result of one `scrape_bible_chapter` call: the boolean return value,
the progress ledger after the call (the Python code mutates it in place),
and the effects performed. -/
structure FetchResult where
  ok : Bool
  ledger : Ledger
  eff : Effects
deriving DecidableEq

/-- `scrape_bible_chapter` from `src/main.py` lines 138-180. Mirrors the
source control flow: unknown version → log and return `False` before any
request; then GET (any `RequestException`, modelled by `httpOk = false`, is
caught → `False`); parse (`parseOk = false` models an exception from
`BeautifulSoup`/attribute access, caught by the generic handler → `False`);
`get_numbered_book_name` raises for an unknown book (caught → `False`);
write (failure caught → `False`); on success update the ledger, call
`save_progress`, and return `True`. -/
def scrape_bible_chapter (env : Env) (book : String) (chapter_number : Nat)
    (version : String) (progress : Ledger) : FetchResult :=
  match lookupA bible_versions version with
  | none => { ok := false, ledger := progress, eff := Effects.emp }
  | some version_id =>
    let url := chapterUrl version_id book chapter_number version
    if env.httpOk url then
      if env.parseOk url then
        let bible_data := (env.pageVerses url).map parseVerse
        match get_numbered_book_name book with
        | none =>
            { ok := false, ledger := progress,
              eff := { requests := [url], writes := [], saves := [] } }
        | some numbered_book =>
            let path := "data/" ++ version ++ "/" ++ numbered_book ++ "/" ++
              book ++ "_" ++ pad3 chapter_number ++ "_" ++ version ++ ".json"
            if env.writeOk path then
              let progress2 := recordCompletion progress version book
              { ok := true, ledger := progress2,
                eff := { requests := [url], writes := [{ path := path, data := bible_data }],
                         saves := [progress2] } }
            else
              { ok := false, ledger := progress,
                eff := { requests := [url], writes := [], saves := [] } }
      else
        { ok := false, ledger := progress,
          eff := { requests := [url], writes := [], saves := [] } }
    else
      { ok := false, ledger := progress,
        eff := { requests := [url], writes := [], saves := [] } }

/-- Whether one chapter fetch succeeds. This depends only on the
environment and the (book, chapter, version) triple, not on the ledger. -/
def chapterOk (env : Env) (book : String) (chapter_number : Nat) (version : String) : Bool :=
  match lookupA bible_versions version with
  | none => false
  | some version_id =>
    let url := chapterUrl version_id book chapter_number version
    env.httpOk url &&
      (env.parseOk url &&
        ((get_numbered_book_name book).isSome &&
          env.writeOk (chapter_path book chapter_number version)))

/-- Result of one `scrape_book` call: the returned count of newly
downloaded chapters, the final ledger, the list of chapters attempted
(passed to the Chapter Fetcher), in order, and the accumulated effects. -/
structure RunResult where
  count : Nat
  ledger : Ledger
  attempted : List Nat
  eff : Effects
deriving DecidableEq

/-- The chapter loop of `scrape_book` (`src/main.py` lines 186-193) over an
explicit list of chapter numbers: call the fetcher, count successes, stop
at the first failure (the `time.sleep(2)` pacing has no observable
effect in this model). -/
def runChapters (env : Env) (book version : String) : List Nat → Ledger → RunResult
  | [], progress => { count := 0, ledger := progress, attempted := [], eff := Effects.emp }
  | c :: rest, progress =>
    let r := scrape_bible_chapter env book c version progress
    if r.ok then
      let rr := runChapters env book version rest r.ledger
      { count := rr.count + 1, ledger := rr.ledger, attempted := c :: rr.attempted,
        eff := r.eff.app rr.eff }
    else
      { count := 0, ledger := r.ledger, attempted := [c], eff := r.eff }

/-- `scrape_book` from `src/main.py` lines 182-194: read the completed
count, then iterate `range(completed_chapters + 1, chapters + 1)`
(embedded as `List.range' (completed + 1) (chapters - completed)`, which
has the same elements), returning `newly_downloaded`. -/
def scrape_book (env : Env) (book : String) (chapters : Nat) (version : String)
    (progress : Ledger) : RunResult :=
  let completed_chapters := completedCount progress version book
  runChapters env book version
    (List.range' (completed_chapters + 1) (chapters - completed_chapters)) progress

/-- The per-version summary line printed by `main`
(`src/main.py` line 271): `f"{version}: {count} chapters downloaded"`. -/
def summary_line (version : String) (count : Nat) : String :=
  version ++ ": " ++ toString count ++ " chapters downloaded"

/-- An environment in which every request, parse and write succeeds and
every fetched page contains no verse-bearing element. -/
def envAll : Env :=
  { httpOk := fun _ => true, parseOk := fun _ => true,
    pageVerses := fun _ => [], writeOk := fun _ => true }

/-- An environment in which every HTTP request fails. -/
def envDown : Env :=
  { httpOk := fun _ => false, parseOk := fun _ => true,
    pageVerses := fun _ => [], writeOk := fun _ => true }

/-- An environment in which exactly the request for RUT chapter 2 of KJV
fails and everything else succeeds. -/
def envFailRut2 : Env :=
  { httpOk := fun u => ! (u == chapterUrl "1" "RUT" 2 "KJV"),
    parseOk := fun _ => true, pageVerses := fun _ => [],
    writeOk := fun _ => true }

theorem lookupA_updateA_self {α : Type} (l : List (String × α)) (k : String) (v : α) :
    lookupA (updateA l k v) k = some v := by
  induction l with
  | nil => simp [updateA, lookupA]
  | cons hd t ih =>
    obtain ⟨k', w⟩ := hd
    by_cases hk : k' = k <;> simp [updateA, lookupA, hk, ih]

theorem lookupA_updateA_ne {α : Type} (l : List (String × α)) (k k' : String) (v : α)
    (h : k' ≠ k) : lookupA (updateA l k v) k' = lookupA l k' := by
  induction l with
  | nil => simp [updateA, lookupA, Ne.symm h]
  | cons hd t ih =>
    obtain ⟨k'', w⟩ := hd
    by_cases hk : k'' = k
    · subst hk
      simp [updateA, lookupA, Ne.symm h]
    · simp [updateA, lookupA, hk, ih]

theorem lookupA_recordCompletion_book (p : Ledger) (v b : String) :
    lookupA ((lookupA (recordCompletion p v b) v).getD []) b =
      some (completedCount p v b + 1) := by
  unfold recordCompletion completedCount
  cases hv : lookupA p v with
  | none =>
    simp only [hv, lookupA_updateA_self, Option.getD_some, Option.getD_none]
    cases hb : lookupA ([] : List (String × Nat)) b <;>
      simp [hb, lookupA_updateA_self, lookupA] at *
  | some m =>
    simp only [hv, Option.getD_some]
    cases hb : lookupA m b with
    | none => simp [hb, lookupA_updateA_self]
    | some n => simp [hb, lookupA_updateA_self]

theorem completedCount_recordCompletion (p : Ledger) (v b : String) :
    completedCount (recordCompletion p v b) v b = completedCount p v b + 1 := by
  have h := lookupA_recordCompletion_book p v b
  unfold completedCount at h ⊢
  rw [h]
  rfl

theorem lookupA_recordCompletion_version_ne (p : Ledger) (v b v' : String)
    (h : v' ≠ v) : lookupA (recordCompletion p v b) v' = lookupA p v' := by
  unfold recordCompletion
  cases hv : lookupA p v with
  | none =>
    simp only [hv]
    rw [lookupA_updateA_ne _ _ _ _ h, lookupA_updateA_ne _ _ _ _ h]
  | some m =>
    simp only [hv]
    rw [lookupA_updateA_ne _ _ _ _ h]

theorem lookupA_recordCompletion_book_ne (p : Ledger) (v b b' : String)
    (h : b' ≠ b) :
    lookupA ((lookupA (recordCompletion p v b) v).getD []) b' =
      lookupA ((lookupA p v).getD []) b' := by
  unfold recordCompletion
  cases hv : lookupA p v with
  | none =>
    simp only [hv, lookupA_updateA_self, Option.getD_some, Option.getD_none]
    cases hb : lookupA ([] : List (String × Nat)) b <;>
      simp_all [lookupA, lookupA_updateA_ne _ _ _ _ h, Ne.symm h]
  | some m =>
    simp only [hv, lookupA_updateA_self, Option.getD_some]
    cases hb : lookupA m b with
    | none => rw [lookupA_updateA_ne _ _ _ _ h, lookupA_updateA_ne _ _ _ _ h]
    | some n => rw [lookupA_updateA_ne _ _ _ _ h]

theorem sbc_ok (env : Env) (book : String) (c : Nat) (version : String) (p : Ledger) :
    (scrape_bible_chapter env book c version p).ok = chapterOk env book c version := by
  unfold scrape_bible_chapter chapterOk
  cases hv : lookupA bible_versions version with
  | none => rfl
  | some vid =>
    simp only
    by_cases hh : env.httpOk (chapterUrl vid book c version)
    · by_cases hp : env.parseOk (chapterUrl vid book c version)
      · cases hn : get_numbered_book_name book with
        | none => simp [hh, hp, hn]
        | some nb =>
          have hpath : "data/" ++ version ++ "/" ++ nb ++ "/" ++ book ++ "_" ++
              pad3 c ++ "_" ++ version ++ ".json" = chapter_path book c version := by
            simp [chapter_path, hn]
          by_cases hw : env.writeOk (chapter_path book c version)
          · simp [hh, hp, hn, hpath, hw]
          · simp [hh, hp, hn, hpath, hw]
      · simp [hh, hp]
    · simp [hh]

theorem sbc_ledger (env : Env) (book : String) (c : Nat) (version : String) (p : Ledger) :
    (scrape_bible_chapter env book c version p).ledger =
      if chapterOk env book c version then recordCompletion p version book else p := by
  unfold scrape_bible_chapter chapterOk
  cases hv : lookupA bible_versions version with
  | none => rfl
  | some vid =>
    simp only
    by_cases hh : env.httpOk (chapterUrl vid book c version)
    · by_cases hp : env.parseOk (chapterUrl vid book c version)
      · cases hn : get_numbered_book_name book with
        | none => simp [hh, hp, hn]
        | some nb =>
          have hpath : "data/" ++ version ++ "/" ++ nb ++ "/" ++ book ++ "_" ++
              pad3 c ++ "_" ++ version ++ ".json" = chapter_path book c version := by
            simp [chapter_path, hn]
          by_cases hw : env.writeOk (chapter_path book c version)
          · simp [hh, hp, hn, hpath, hw]
          · simp [hh, hp, hn, hpath, hw]
      · simp [hh, hp]
    · simp [hh]

theorem sbc_writes_path (env : Env) (book : String) (c : Nat) (version : String) (p : Ledger) :
    (scrape_bible_chapter env book c version p).eff.writes.map Write.path =
      if chapterOk env book c version then [chapter_path book c version] else [] := by
  unfold scrape_bible_chapter chapterOk
  cases hv : lookupA bible_versions version with
  | none => rfl
  | some vid =>
    simp only
    by_cases hh : env.httpOk (chapterUrl vid book c version)
    · by_cases hp : env.parseOk (chapterUrl vid book c version)
      · cases hn : get_numbered_book_name book with
        | none => simp [hh, hp, hn]
        | some nb =>
          have hpath : "data/" ++ version ++ "/" ++ nb ++ "/" ++ book ++ "_" ++
              pad3 c ++ "_" ++ version ++ ".json" = chapter_path book c version := by
            simp [chapter_path, hn]
          by_cases hw : env.writeOk (chapter_path book c version)
          · simp [hh, hp, hn, hpath, hw]
          · simp [hh, hp, hn, hpath, hw]
      · simp [hh, hp]
    · simp [hh]

theorem sbc_saves (env : Env) (book : String) (c : Nat) (version : String) (p : Ledger) :
    (scrape_bible_chapter env book c version p).eff.saves =
      if chapterOk env book c version then [recordCompletion p version book] else [] := by
  unfold scrape_bible_chapter chapterOk
  cases hv : lookupA bible_versions version with
  | none => rfl
  | some vid =>
    simp only
    by_cases hh : env.httpOk (chapterUrl vid book c version)
    · by_cases hp : env.parseOk (chapterUrl vid book c version)
      · cases hn : get_numbered_book_name book with
        | none => simp [hh, hp, hn]
        | some nb =>
          have hpath : "data/" ++ version ++ "/" ++ nb ++ "/" ++ book ++ "_" ++
              pad3 c ++ "_" ++ version ++ ".json" = chapter_path book c version := by
            simp [chapter_path, hn]
          by_cases hw : env.writeOk (chapter_path book c version)
          · simp [hh, hp, hn, hpath, hw]
          · simp [hh, hp, hn, hpath, hw]
      · simp [hh, hp]
    · simp [hh]

theorem take_range' (m : Nat) : ∀ (s n : Nat),
    (List.range' s n).take m = List.range' s (min m n) := by
  induction m with
  | zero => intro s n; simp
  | succ m ih =>
    intro s n
    cases n with
    | zero => simp
    | succ n =>
      rw [List.range'_succ, List.take_succ_cons, ih, Nat.succ_min_succ, List.range'_succ]

theorem runChapters_count_ledger (env : Env) (book version : String) :
    ∀ (l : List Nat) (p : Ledger),
      completedCount (runChapters env book version l p).ledger version book =
        completedCount p version book + (runChapters env book version l p).count := by
  intro l
  induction l with
  | nil => intro p; simp [runChapters]
  | cons c rest ih =>
    intro p
    simp only [runChapters, sbc_ok, sbc_ledger]
    by_cases h : chapterOk env book c version
    · simp only [h, if_true]
      rw [ih, completedCount_recordCompletion]
      omega
    · simp [h]

theorem runChapters_count_le (env : Env) (book version : String) :
    ∀ (l : List Nat) (p : Ledger),
      (runChapters env book version l p).count ≤ l.length := by
  intro l
  induction l with
  | nil => intro p; simp [runChapters]
  | cons c rest ih =>
    intro p
    simp only [runChapters, sbc_ok]
    by_cases h : chapterOk env book c version
    · simp only [h, if_true, List.length_cons]
      exact Nat.succ_le_succ (ih _)
    · simp [h]

theorem runChapters_attempted_take (env : Env) (book version : String) :
    ∀ (l : List Nat) (p : Ledger), ∃ m, m ≤ l.length ∧
      (runChapters env book version l p).attempted = l.take m := by
  intro l
  induction l with
  | nil => intro p; exact ⟨0, by simp [runChapters]⟩
  | cons c rest ih =>
    intro p
    simp only [runChapters, sbc_ok, sbc_ledger]
    by_cases h : chapterOk env book c version
    · obtain ⟨m, hm, he⟩ := ih (recordCompletion p version book)
      refine ⟨m + 1, by simpa using hm, ?_⟩
      simp [h, he]
    · exact ⟨1, by simp [h]⟩

theorem runChapters_count_filter (env : Env) (book version : String) :
    ∀ (l : List Nat) (p : Ledger),
      (runChapters env book version l p).count =
        ((runChapters env book version l p).attempted.filter
          (fun c => chapterOk env book c version)).length := by
  intro l
  induction l with
  | nil => intro p; simp [runChapters]
  | cons c rest ih =>
    intro p
    simp only [runChapters, sbc_ok]
    by_cases h : chapterOk env book c version
    · simp only [h, if_true, List.filter_cons]
      simp [h, ih]
    · simp [h, List.filter_cons]

theorem runChapters_writes (env : Env) (book version : String) :
    ∀ (l : List Nat) (p : Ledger),
      (runChapters env book version l p).eff.writes.map Write.path =
        (l.take (runChapters env book version l p).count).map
          (fun c => chapter_path book c version) := by
  intro l
  induction l with
  | nil => intro p; simp [runChapters, Effects.emp]
  | cons c rest ih =>
    intro p
    simp only [runChapters, sbc_ok]
    by_cases h : chapterOk env book c version
    · simp only [h, if_true, Effects.app, List.map_append, List.take_succ_cons, List.map_cons]
      rw [ih]
      have hw := sbc_writes_path env book c version p
      rw [h] at hw
      simp only [if_true] at hw
      simp [hw]
    · have hw := sbc_writes_path env book c version p
      simp [h] at hw
      simp [h, hw]

theorem runChapters_all_ok (env : Env) (book version : String) :
    ∀ (l : List Nat) (p : Ledger),
      (∀ c ∈ l, chapterOk env book c version = true) →
      (runChapters env book version l p).attempted = l := by
  intro l
  induction l with
  | nil => intro p _; simp [runChapters]
  | cons c rest ih =>
    intro p hall
    have hc : chapterOk env book c version = true := hall c (by simp)
    simp only [runChapters, sbc_ok, hc, if_true]
    rw [ih _ (fun d hd => hall d (by simp [hd]))]

theorem runChapters_ledger_version_ne (env : Env) (book version v' : String)
    (h : v' ≠ version) :
    ∀ (l : List Nat) (p : Ledger),
      lookupA (runChapters env book version l p).ledger v' = lookupA p v' := by
  intro l
  induction l with
  | nil => intro p; simp [runChapters]
  | cons c rest ih =>
    intro p
    simp only [runChapters, sbc_ok, sbc_ledger]
    by_cases hc : chapterOk env book c version
    · simp only [hc, if_true]
      rw [ih, lookupA_recordCompletion_version_ne _ _ _ _ h]
    · simp [hc]

theorem runChapters_ledger_book_ne (env : Env) (book version b' : String)
    (h : b' ≠ book) :
    ∀ (l : List Nat) (p : Ledger),
      lookupA ((lookupA (runChapters env book version l p).ledger version).getD []) b' =
        lookupA ((lookupA p version).getD []) b' := by
  intro l
  induction l with
  | nil => intro p; simp [runChapters]
  | cons c rest ih =>
    intro p
    simp only [runChapters, sbc_ok, sbc_ledger]
    by_cases hc : chapterOk env book c version
    · simp only [hc, if_true]
      rw [ih, lookupA_recordCompletion_book_ne _ _ _ _ h]
    · simp [hc]

theorem runChapters_fail (env : Env) (book version : String) (K : Nat)
    (hK : chapterOk env book K version = false) :
    ∀ (n a : Nat) (p : Ledger), a ≤ K → K < a + n →
      (∀ c, a ≤ c → c < K → chapterOk env book c version = true) →
      (runChapters env book version (List.range' a n) p).count = K - a ∧
      (runChapters env book version (List.range' a n) p).attempted =
        List.range' a (K - a + 1) ∧
      completedCount (runChapters env book version (List.range' a n) p).ledger
          version book = completedCount p version book + (K - a) := by
  intro n
  induction n with
  | zero => intro a p h1 h2 _; omega
  | succ n ih =>
    intro a p h1 h2 hpre
    rw [List.range'_succ]
    by_cases ha : a = K
    · subst ha
      simp only [runChapters, sbc_ok, sbc_ledger, hK, Bool.false_eq_true, if_false]
      refine ⟨by omega, ?_, by simp⟩
      have : a - a + 1 = 1 := by omega
      rw [this, List.range'_succ]
      simp
    · have hlt : a < K := Nat.lt_of_le_of_ne h1 ha
      have hsucc : chapterOk env book a version = true := hpre a (Nat.le_refl a) hlt
      simp only [runChapters, sbc_ok, sbc_ledger, hsucc, if_true]
      obtain ⟨h1', h2', h3'⟩ := ih (a + 1) (recordCompletion p version book) hlt
        (by omega) (fun c hc1 hc2 => hpre c (by omega) hc2)
      refine ⟨by rw [h1']; omega, ?_, ?_⟩
      · have heq : K - a + 1 = (K - (a + 1) + 1) + 1 := by omega
        rw [heq, List.range'_succ, h2']
      · rw [h3', completedCount_recordCompletion]
        omega

theorem scrape_book_def (env : Env) (book : String) (chapters : Nat)
    (version : String) (p : Ledger) :
    scrape_book env book chapters version p =
      runChapters env book version
        (List.range' (completedCount p version book + 1)
          (chapters - completedCount p version book)) p := rfl

/-- Claim C1: with a ledger recording N completed chapters for
(book, version), `scrape_book` attempts chapters in order starting at
N + 1 (a contiguous initial segment of N+1 .. chapterCount; all of it when
every fetch succeeds), and never attempts any chapter in 1..N. -/
theorem scrape_book_resumes (env : Env) (book version : String) (chapters : Nat)
    (p : Ledger) :
    (∃ k, k ≤ chapters - completedCount p version book ∧
      (scrape_book env book chapters version p).attempted =
        List.range' (completedCount p version book + 1) k) ∧
    (∀ c ∈ (scrape_book env book chapters version p).attempted,
      completedCount p version book + 1 ≤ c ∧ c ≤ chapters) ∧
    ((∀ c, completedCount p version book + 1 ≤ c → c ≤ chapters →
        chapterOk env book c version = true) →
      (scrape_book env book chapters version p).attempted =
        List.range' (completedCount p version book + 1)
          (chapters - completedCount p version book)) := by
  rw [scrape_book_def]
  set N := completedCount p version book with hN
  obtain ⟨m, hm, he⟩ := runChapters_attempted_take env book version
    (List.range' (N + 1) (chapters - N)) p
  simp only [List.length_range'] at hm
  have hatt : (runChapters env book version (List.range' (N + 1) (chapters - N)) p).attempted =
      List.range' (N + 1) (min m (chapters - N)) := by
    rw [he, take_range']
  have hmin : min m (chapters - N) ≤ chapters - N := Nat.min_le_right _ _
  refine ⟨⟨min m (chapters - N), hmin, hatt⟩, ?_, ?_⟩
  · intro c hc
    rw [hatt, List.mem_range'_1] at hc
    omega
  · intro hall
    exact runChapters_all_ok env book version _ p (fun c hc => by
      rw [List.mem_range'_1] at hc
      exact hall c (by omega) (by omega))

/-- Claim C1 witness: from a ledger with 2 completed RUT (KJV) chapters, a
fully succeeding run attempts exactly chapters 3 and 4. -/
theorem scrape_book_resumes_w :
    (scrape_book envAll "RUT" 4 "KJV" [("KJV", [("RUT", 2)])]).attempted =
      List.range' 3 2 := by
  have h := scrape_book_resumes envAll "RUT" "KJV" 4 [("KJV", [("RUT", 2)])]
  exact h.2.2 (fun c h1 h2 => by
    have hN : completedCount [("KJV", [("RUT", 2)])] "KJV" "RUT" = 2 := rfl
    rw [hN] at h1
    have hc : c = 3 ∨ c = 4 := by omega
    rcases hc with hc | hc <;> subst hc <;> rfl)

/-- Claim C2: if the Chapter Fetcher fails on chapter K (having succeeded
on N+1..K-1, where N is the ledger count), `scrape_book` attempts exactly
chapters N+1..K — nothing in K+1..chapterCount — returns K-1-N (the count
downloaded before K), and the final ledger count for the pair is K-1. -/
theorem scrape_book_fail_fast (env : Env) (book version : String) (chapters K : Nat)
    (p : Ledger)
    (hK1 : completedCount p version book + 1 ≤ K) (hK2 : K ≤ chapters)
    (hfail : chapterOk env book K version = false)
    (hpre : ∀ c, completedCount p version book + 1 ≤ c → c < K →
      chapterOk env book c version = true) :
    (scrape_book env book chapters version p).attempted =
      List.range' (completedCount p version book + 1)
        (K - completedCount p version book) ∧
    (scrape_book env book chapters version p).count =
      K - 1 - completedCount p version book ∧
    completedCount (scrape_book env book chapters version p).ledger version book =
      K - 1 := by
  rw [scrape_book_def]
  obtain ⟨h1, h2, h3⟩ := runChapters_fail env book version K hfail
    (chapters - completedCount p version book) (completedCount p version book + 1) p
    hK1 (by omega) (fun c hc1 hc2 => hpre c hc1 hc2)
  refine ⟨?_, by rw [h1]; omega, by rw [h3]; omega⟩
  rw [h2]
  congr 1
  omega

/-- Claim C2 witness: from a fresh ledger, with the RUT (KJV) chapter-2
fetch failing, the run attempts chapters 1 and 2 only, returns 1, and the
ledger records 1 completed chapter. -/
theorem scrape_book_fail_fast_w :
    (scrape_book envFailRut2 "RUT" 4 "KJV" []).attempted = List.range' 1 2 ∧
    (scrape_book envFailRut2 "RUT" 4 "KJV" []).count = 1 ∧
    completedCount (scrape_book envFailRut2 "RUT" 4 "KJV" []).ledger "KJV" "RUT" = 1 :=
  scrape_book_fail_fast envFailRut2 "RUT" "KJV" 4 2 []
    (by decide) (by decide) rfl
    (fun c h1 h2 => by
      have hc : c = 1 := by omega
      subst hc
      rfl)

/-- Claim C3: preservation of the ledger invariant by `scrape_book`: if the
initial count N for (version, book) is at most the chapter count, then the
final count is N plus the number of newly downloaded chapters, still at
most the chapter count; the files written are exactly the artifacts of the
contiguous chapters N+1, N+2, ... (no gaps); and every other ledger key —
other versions, and other books of the same version — is untouched. -/
theorem scrape_book_ledger_invariant (env : Env) (book version : String)
    (chapters : Nat) (p : Ledger)
    (hinv : completedCount p version book ≤ chapters) :
    completedCount (scrape_book env book chapters version p).ledger version book =
      completedCount p version book + (scrape_book env book chapters version p).count ∧
    completedCount (scrape_book env book chapters version p).ledger version book ≤
      chapters ∧
    (scrape_book env book chapters version p).eff.writes.map Write.path =
      (List.range' (completedCount p version book + 1)
        (scrape_book env book chapters version p).count).map
        (fun c => chapter_path book c version) ∧
    (∀ v', v' ≠ version →
      lookupA (scrape_book env book chapters version p).ledger v' = lookupA p v') ∧
    (∀ b', b' ≠ book →
      lookupA ((lookupA (scrape_book env book chapters version p).ledger version).getD []) b' =
        lookupA ((lookupA p version).getD []) b') := by
  rw [scrape_book_def]
  set N := completedCount p version book with hN
  have h1 := runChapters_count_ledger env book version (List.range' (N + 1) (chapters - N)) p
  have h2 := runChapters_count_le env book version (List.range' (N + 1) (chapters - N)) p
  simp only [List.length_range'] at h2
  have h3 := runChapters_writes env book version (List.range' (N + 1) (chapters - N)) p
  refine ⟨h1, by omega, ?_,
    fun v' hv' => runChapters_ledger_version_ne env book version v' hv' _ p,
    fun b' hb' => runChapters_ledger_book_ne env book version b' hb' _ p⟩
  rw [h3, take_range', Nat.min_eq_left h2]

/-- Claim C3 witness: a fresh full run on RUT (KJV) drives the count from 0
to 4, within the 4-chapter bound. -/
theorem scrape_book_ledger_invariant_w :
    completedCount (scrape_book envAll "RUT" 4 "KJV" []).ledger "KJV" "RUT" =
      0 + (scrape_book envAll "RUT" 4 "KJV" []).count ∧
    completedCount (scrape_book envAll "RUT" 4 "KJV" []).ledger "KJV" "RUT" ≤ 4 :=
  ⟨(scrape_book_ledger_invariant envAll "RUT" "KJV" 4 [] (by decide)).1,
   (scrape_book_ledger_invariant envAll "RUT" "KJV" 4 [] (by decide)).2.1⟩

/-- Claim C9: the integer `scrape_book` returns equals the ledger count for
the pair after the invocation minus the count before it, and equals the
number of Chapter Fetcher calls that returned true. -/
theorem scrape_book_count_algebra (env : Env) (book version : String)
    (chapters : Nat) (p : Ledger) :
    completedCount (scrape_book env book chapters version p).ledger version book =
      completedCount p version book + (scrape_book env book chapters version p).count ∧
    (scrape_book env book chapters version p).count =
      completedCount (scrape_book env book chapters version p).ledger version book -
        completedCount p version book ∧
    (scrape_book env book chapters version p).count =
      ((scrape_book env book chapters version p).attempted.filter
        (fun c => chapterOk env book c version)).length := by
  rw [scrape_book_def]
  have h1 := runChapters_count_ledger env book version
    (List.range' (completedCount p version book + 1)
      (chapters - completedCount p version book)) p
  exact ⟨h1, by omega, runChapters_count_filter env book version _ p⟩

/-- Claim C4: `scrape_bible_chapter` returns true only if version
resolution, the HTTP fetch, the parse, and the artifact write all
succeeded (record-completion itself cannot fail: `save_progress` swallows
its errors); and whenever it returns false the in-memory ledger is
returned completely unchanged. -/
theorem chapter_fetcher_ok_conditions (env : Env) (book : String) (c : Nat)
    (version : String) (p : Ledger) :
    ((scrape_bible_chapter env book c version p).ok = true →
      ∃ vid, lookupA bible_versions version = some vid ∧
        env.httpOk (chapterUrl vid book c version) = true ∧
        env.parseOk (chapterUrl vid book c version) = true ∧
        (get_numbered_book_name book).isSome = true ∧
        env.writeOk (chapter_path book c version) = true) ∧
    ((scrape_bible_chapter env book c version p).ok = false →
      (scrape_bible_chapter env book c version p).ledger = p) := by
  rw [sbc_ok, sbc_ledger]
  constructor
  · intro hok
    unfold chapterOk at hok
    cases hv : lookupA bible_versions version with
    | none => rw [hv] at hok; exact absurd hok (by simp)
    | some vid =>
      rw [hv] at hok
      simp only [Bool.and_eq_true] at hok
      exact ⟨vid, rfl, hok.1, hok.2.1, hok.2.2.1, hok.2.2.2⟩
  · intro hfail
    rw [hfail]
    simp

/-- Claim C4 witness: with the network down, the fetcher returns false for
GEN 1 (KJV) and hands back the ledger it was given, unchanged. -/
theorem chapter_fetcher_ok_conditions_w :
    (scrape_bible_chapter envDown "GEN" 1 "KJV" [("KJV", [("GEN", 3)])]).ledger =
      [("KJV", [("GEN", 3)])] :=
  (chapter_fetcher_ok_conditions envDown "GEN" 1 "KJV" [("KJV", [("GEN", 3)])]).2 rfl

/-- Claim C5: `recordCompletion` (the ledger update of
`scrape_bible_chapter` lines 167-173) sets the (version, book) entry to
exactly its previous count plus 1 (an absent entry counting as 0, so a
first success yields 1), leaves every other version key and every other
book key of the same version unchanged, and on every successful chapter
save the fetcher immediately passes the full updated ledger to
`save_progress`. -/
theorem recordCompletion_spec (p : Ledger) (v b v' b' : String) (env : Env)
    (book : String) (c : Nat) (version : String) (q : Ledger) :
    lookupA ((lookupA (recordCompletion p v b) v).getD []) b =
      some (completedCount p v b + 1) ∧
    completedCount (recordCompletion p v b) v b = completedCount p v b + 1 ∧
    (v' ≠ v → lookupA (recordCompletion p v b) v' = lookupA p v') ∧
    (b' ≠ b → lookupA ((lookupA (recordCompletion p v b) v).getD []) b' =
      lookupA ((lookupA p v).getD []) b') ∧
    ((scrape_bible_chapter env book c version q).ok = true →
      (scrape_bible_chapter env book c version q).eff.saves =
        [recordCompletion q version book] ∧
      (scrape_bible_chapter env book c version q).ledger =
        recordCompletion q version book) := by
  refine ⟨lookupA_recordCompletion_book p v b, completedCount_recordCompletion p v b,
    fun h => lookupA_recordCompletion_version_ne p v b v' h,
    fun h => lookupA_recordCompletion_book_ne p v b b' h, fun hok => ?_⟩
  rw [sbc_ok] at hok
  rw [sbc_saves, sbc_ledger, hok]
  simp

/-- Claim C5 witness: a first success on RUT (KJV) from an empty ledger
yields count 1, an unrelated version key stays absent, and the successful
fetch saves exactly the updated ledger. -/
theorem recordCompletion_spec_w :
    lookupA ((lookupA (recordCompletion [] "KJV" "RUT") "KJV").getD []) "RUT" =
      some 1 ∧
    lookupA (recordCompletion [] "KJV" "RUT") "NIV" = lookupA ([] : Ledger) "NIV" ∧
    (scrape_bible_chapter envAll "RUT" 1 "KJV" []).eff.saves =
      [recordCompletion [] "KJV" "RUT"] := by
  have h := recordCompletion_spec [] "KJV" "RUT" "NIV" "GEN" envAll "RUT" 1 "KJV" []
  exact ⟨h.1, h.2.2.1 (by decide), (h.2.2.2.2 rfl).1⟩

/-- Claim C6: `load_progress` is fail-open and total: an absent progress
file yields the empty ledger, a file that is empty after stripping yields
the empty ledger, and an unparseable file (the `json.loads` oracle returns
none) yields the empty ledger. Being a total Lean function, it can never
raise. -/
theorem load_progress_fail_open (parseJson : String → Option Ledger)
    (content : String) :
    load_progress none parseJson = [] ∧
    (pyStrip content = "" → load_progress (some content) parseJson = []) ∧
    (parseJson (pyStrip content) = none →
      load_progress (some content) parseJson = []) := by
  refine ⟨rfl, fun h => ?_, fun h => ?_⟩
  · simp [load_progress, h]
  · unfold load_progress
    by_cases he : pyStrip content = "" <;> simp [he, h]

/-- Claim C6 witness: an absent file, a whitespace-only file, and a file
the JSON parser rejects all load as the empty ledger. -/
theorem load_progress_fail_open_w :
    load_progress none (fun _ => none) = [] ∧
    load_progress (some "   ") (fun _ => some [("KJV", [("GEN", 1)])]) = [] ∧
    load_progress (some "not json") (fun _ => none) = [] :=
  ⟨(load_progress_fail_open (fun _ => none) "").1,
   (load_progress_fail_open (fun _ => some [("KJV", [("GEN", 1)])]) "   ").2.1 (by decide),
   (load_progress_fail_open (fun _ => none) "not json").2.2 rfl⟩

/-- Claim C7 counterexample: RUT is the 8th book of `bible_books`
(GEN, EXO, LEV, NUM, DEU, JOS, JDG, RUT), so the fresh all-success run on
books=["RUT"], versions=["KJV"] writes its 4 artifacts under
`data/KJV/08_RUT/` — not under `data/KJV/09_RUT/` as the claim states. -/
theorem scenario_RUT_KJV_counterexample :
    (scrape_book envAll "RUT" 4 "KJV" []).eff.writes.map Write.path =
      ["data/KJV/08_RUT/RUT_001_KJV.json", "data/KJV/08_RUT/RUT_002_KJV.json",
       "data/KJV/08_RUT/RUT_003_KJV.json", "data/KJV/08_RUT/RUT_004_KJV.json"] ∧
    ¬ ((scrape_book envAll "RUT" 4 "KJV" []).eff.writes.map Write.path =
      ["data/KJV/09_RUT/RUT_001_KJV.json", "data/KJV/09_RUT/RUT_002_KJV.json",
       "data/KJV/09_RUT/RUT_003_KJV.json", "data/KJV/09_RUT/RUT_004_KJV.json"]) :=
  ⟨rfl, by decide⟩

/-- Claim C7 (amended): for books=["RUT"], versions=["KJV"], from a fresh
ledger with all fetches succeeding, the run produces 4 artifacts under
`data/KJV/08_RUT/` (ordinal 08: RUT's zero-padded 1-based canonical rank),
named `RUT_<chapter zero-padded to 3 digits>_KJV.json`, the ledger
`{"KJV": {"RUT": 4}}`, and the summary line
"KJV: 4 chapters downloaded". -/
theorem scenario_RUT_KJV_amended :
    (scrape_book envAll "RUT" 4 "KJV" []).count = 4 ∧
    (scrape_book envAll "RUT" 4 "KJV" []).ledger = [("KJV", [("RUT", 4)])] ∧
    (scrape_book envAll "RUT" 4 "KJV" []).eff.writes.map Write.path =
      ["data/KJV/08_RUT/RUT_001_KJV.json", "data/KJV/08_RUT/RUT_002_KJV.json",
       "data/KJV/08_RUT/RUT_003_KJV.json", "data/KJV/08_RUT/RUT_004_KJV.json"] ∧
    summary_line "KJV" (scrape_book envAll "RUT" 4 "KJV" []).count =
      "KJV: 4 chapters downloaded" :=
  ⟨rfl, rfl, rfl, rfl⟩

/-- Claim C8: for a version code absent from `bible_versions`, the fetcher
returns false with no HTTP request, no file write, no ledger save, and the
ledger unchanged. -/
theorem unknown_version_no_effects (env : Env) (book : String) (c : Nat)
    (version : String) (p : Ledger)
    (h : lookupA bible_versions version = none) :
    scrape_bible_chapter env book c version p =
      { ok := false, ledger := p, eff := Effects.emp } := by
  unfold scrape_bible_chapter
  rw [h]

/-- Claim C8 witness: version "ZZZ" is not in the catalog; the fetcher
reports failure with no requests, writes or saves, and an untouched
ledger. -/
theorem unknown_version_no_effects_w :
    scrape_bible_chapter envAll "GEN" 1 "ZZZ" [("KJV", [("GEN", 2)])] =
      { ok := false, ledger := [("KJV", [("GEN", 2)])], eff := Effects.emp } :=
  unknown_version_no_effects envAll "GEN" 1 "ZZZ" [("KJV", [("GEN", 2)])] rfl

/-- Claim C10: when the HTTP GET and the parse succeed but the page
contains zero verse-bearing elements, the fetcher still writes an artifact
containing the empty verse list, records the chapter as completed in the
ledger, and returns true. -/
theorem empty_page_success (env : Env) (book : String) (c : Nat) (version : String)
    (p : Ledger) (vid nb : String)
    (hv : lookupA bible_versions version = some vid)
    (hn : get_numbered_book_name book = some nb)
    (hh : env.httpOk (chapterUrl vid book c version) = true)
    (hp : env.parseOk (chapterUrl vid book c version) = true)
    (he : env.pageVerses (chapterUrl vid book c version) = [])
    (hw : env.writeOk (chapter_path book c version) = true) :
    (scrape_bible_chapter env book c version p).ok = true ∧
    (scrape_bible_chapter env book c version p).eff.writes =
      [{ path := chapter_path book c version, data := [] }] ∧
    (scrape_bible_chapter env book c version p).ledger =
      recordCompletion p version book := by
  have hpath : "data/" ++ version ++ "/" ++ nb ++ "/" ++ book ++ "_" ++
      pad3 c ++ "_" ++ version ++ ".json" = chapter_path book c version := by
    simp [chapter_path, hn]
  unfold scrape_bible_chapter
  rw [hv]
  simp only [hh, hp, hn, he, hpath, hw, if_true, List.map_nil]
  exact ⟨trivial, trivial, trivial⟩

/-- Claim C10 witness: RUT 1 (KJV) fetched from a page with no
`span[data-usfm]` elements is still written (with an empty verse list),
recorded, and reported as success. -/
theorem empty_page_success_w :
    (scrape_bible_chapter envAll "RUT" 1 "KJV" []).ok = true ∧
    (scrape_bible_chapter envAll "RUT" 1 "KJV" []).eff.writes =
      [{ path := chapter_path "RUT" 1 "KJV", data := [] }] ∧
    (scrape_bible_chapter envAll "RUT" 1 "KJV" []).ledger =
      recordCompletion [] "KJV" "RUT" :=
  empty_page_success envAll "RUT" 1 "KJV" [] "1" "08_RUT" rfl rfl rfl rfl rfl rfl

end BibleScraper
